import Mathlib

/-!
Verification development for the `trace` persistence layer
(`src/trace/storage_impl/` and `src/trace/models/`).

The Python source is shallowly embedded: JSON documents become the
inductive `JValue`, dictionaries become association lists, the snapshot
directory becomes an association list from file name to parsed-or-invalid
content, and each Python method becomes an executable Lean function that
mirrors the source line by line.  Runtime effects the claims quantify
over (an I/O failure during a temporary-file write, the contents of a
lock marker, liveness of a process id) are threaded as explicit
parameters.
-/

namespace Trace

/-- A JSON value as produced by `json.load` / consumed by `json.dump`.
Numbers are modelled as rationals (Python floats and ints are never
computed with in this layer, only stored and compared). -/
inductive JValue where
  | null : JValue
  | bool (b : Bool) : JValue
  | num (q : ℚ) : JValue
  | str (s : String) : JValue
  | arr (xs : List JValue) : JValue
  | obj (fields : List (String × JValue)) : JValue

/-- Errors a Python expression in the load path can raise.
`jsonDecode` is `json.JSONDecodeError` (a subclass of `ValueError`),
`keyError` is a `KeyError` from a missing dict key, `typeError` is a
`TypeError` from subscripting or iterating a value of the wrong shape. -/
inductive PErr where
  | jsonDecode : PErr
  | keyError (k : String) : PErr
  | typeError (msg : String) : PErr

/-- Whether `Storage._load_data`'s `except (json.JSONDecodeError, IOError,
KeyError, ValueError)` clause catches the error.  `TypeError` is not in
the tuple and propagates. -/
def PErr.caught : PErr → Bool
  | .jsonDecode => true
  | .keyError _ => true
  | .typeError _ => false

/-- Rendering of the exception used in the `RuntimeError` message
(`str(e)` in the f-string).  The exact text is irrelevant to the claims;
only the backup path, concatenated around it, matters. -/
def PErr.message : PErr → String
  | .jsonDecode => "Expecting value"
  | .keyError k => k
  | .typeError msg => msg

/-- Lookup in an association list, first binding wins (Python dict
semantics: keys are unique, insertion order preserved). -/
def assocGet {α : Type} : List (String × α) → String → Option α
  | [], _ => none
  | (k, v) :: rest, k' => if k = k' then some v else assocGet rest k'

/-- Update or append a binding (`d[k] = v` on a Python dict): replaces the
existing binding in place, otherwise appends at the end. -/
def assocSet {α : Type} : List (String × α) → String → α → List (String × α)
  | [], k, v => [(k, v)]
  | (k', v') :: rest, k, v =>
      if k' = k then (k, v) :: rest else (k', v') :: assocSet rest k v

/-- Subscripting `data[k]` on a decoded JSON value: a dict lookup that
raises `KeyError` when missing, and a `TypeError` on any non-dict. -/
def JValue.pySubscr : JValue → String → Except PErr JValue
  | .obj kvs, k =>
      match assocGet kvs k with
      | some v => .ok v
      | none => .error (.keyError k)
  | .str _, _ => .error (.typeError "string indices must be integers")
  | .arr _, _ => .error (.typeError "list indices must be integers")
  | _, _ => .error (.typeError "object is not subscriptable")

/-- The call `data.get(k, dflt)`.  In the source this only runs after a
successful subscript on the same value, so `data` is always a dict there;
the non-dict branch is unreachable and returns the default. -/
def JValue.pyGetD (data : JValue) (k : String) (dflt : JValue) : JValue :=
  match data with
  | .obj kvs => (assocGet kvs k).getD dflt
  | _ => dflt

/-- Iteration `for x in data` over a decoded JSON value: lists yield their
elements, strings yield their one-character substrings, dicts yield their
keys, and every scalar raises `TypeError`. -/
def JValue.pyIter : JValue → Except PErr (List JValue)
  | .arr xs => .ok xs
  | .str s => .ok (s.toList.map (fun c => .str (String.singleton c)))
  | .obj kvs => .ok (kvs.map (fun kv => .str kv.1))
  | _ => .error (.typeError "object is not iterable")

/-- Sequential mapping of a fallible function over a list, stopping at the
first exception: the evaluation order of a Python list comprehension. -/
def mapE {α β : Type} (f : α → Except PErr β) : List α → Except PErr (List β)
  | [] => .ok []
  | a :: as => do
      let b ← f a
      let bs ← mapE f as
      pure (b :: bs)

/-- Reading a loaded value into the type the dataclass declares for a
`str` field.  The source assigns the raw value with no check whatsoever,
so these projections are total — `from_dict` below fails in exactly the
places the source can fail (its subscripts and iterations) and nowhere
else.  On a well-typed value the projection is the identity; an ill-typed
value — which Python would carry along unchecked and which no claim ever
inspects — is read as the type's empty default. -/
def JValue.asStringD : JValue → String
  | .str s => s
  | _ => ""

/-- Total reading of a field the dataclass declares as `float` (the
timestamp); identity on numbers, see `JValue.asStringD`. -/
def JValue.asNumD : JValue → ℚ
  | .num q => q
  | _ => 0

/-- Total reading of the optional signature field: JSON `null` is Python
`None`; identity on strings and null, see `JValue.asStringD`. -/
def JValue.asOptStringD : JValue → Option String
  | .null => none
  | .str s => some s
  | _ => none

/-- Total reading of a list-of-strings field (tags, iocs); identity on
lists of strings, see `JValue.asStringD`. -/
def JValue.asStrListD : JValue → List String
  | .arr xs => xs.map JValue.asStringD
  | _ => []

/-- Total reading of the string-keyed metadata map; identity on objects
with string values, see `JValue.asStringD`. -/
def JValue.asStrDictD : JValue → List (String × String)
  | .obj kvs => kvs.map (fun kv => (kv.1, kv.2.asStringD))
  | _ => []

/-- The `Note` dataclass of `src/trace/models/__init__.py`. -/
structure Note where
  content : String
  timestamp : ℚ
  note_id : String
  content_hash : String
  signature : Option String
  tags : List String
  iocs : List String
deriving DecidableEq

/-- The `Evidence` dataclass. -/
structure Evidence where
  name : String
  evidence_id : String
  description : String
  metadata : List (String × String)
  notes : List Note
deriving DecidableEq

/-- The `Case` dataclass. -/
structure Case where
  case_number : String
  case_id : String
  name : String
  investigator : String
  evidence : List Evidence
  notes : List Note
deriving DecidableEq

/-- Mirrors `Note.to_dict`: keys in source order, `None` signature
serialized as `null`, tag and ioc lists as JSON arrays. -/
def Note.to_dict (n : Note) : JValue :=
  .obj [("note_id", .str n.note_id),
        ("content", .str n.content),
        ("timestamp", .num n.timestamp),
        ("content_hash", .str n.content_hash),
        ("signature", match n.signature with | some s => .str s | none => .null),
        ("tags", .arr (n.tags.map .str)),
        ("iocs", .arr (n.iocs.map .str))]

/-- Mirrors `Note.from_dict`: required subscripts for content, timestamp
and note id (in argument order), `.get` defaults for the rest.  The
source assigns every value unchecked, so the three subscripts are the
only failure points; field values are read into the declared dataclass
types by the total projections above. -/
def Note.from_dict (data : JValue) : Except PErr Note := do
  let content ← data.pySubscr "content"
  let timestamp ← data.pySubscr "timestamp"
  let note_id ← data.pySubscr "note_id"
  pure { content := content.asStringD
         timestamp := timestamp.asNumD
         note_id := note_id.asStringD
         content_hash := (data.pyGetD "content_hash" (.str "")).asStringD
         signature := (data.pyGetD "signature" .null).asOptStringD
         tags := (data.pyGetD "tags" (.arr [])).asStrListD
         iocs := (data.pyGetD "iocs" (.arr [])).asStrListD }

/-- Mirrors `Evidence.to_dict`. -/
def Evidence.to_dict (e : Evidence) : JValue :=
  .obj [("evidence_id", .str e.evidence_id),
        ("name", .str e.name),
        ("description", .str e.description),
        ("metadata", .obj (e.metadata.map (fun kv => (kv.1, .str kv.2)))),
        ("notes", .arr (e.notes.map Note.to_dict))]

/-- Mirrors `Evidence.from_dict`: subscripts for name and evidence id,
then the note list comprehension over `data.get("notes", [])`.  As in the
source, the only failure points are the two subscripts, the iteration of
the notes value and the recursive `Note.from_dict` calls; the `.get`
defaulted values are assigned unchecked. -/
def Evidence.from_dict (data : JValue) : Except PErr Evidence := do
  let name ← data.pySubscr "name"
  let evidence_id ← data.pySubscr "evidence_id"
  let noteVals ← (data.pyGetD "notes" (.arr [])).pyIter
  let notes ← mapE Note.from_dict noteVals
  pure { name := name.asStringD
         evidence_id := evidence_id.asStringD
         description := (data.pyGetD "description" (.str "")).asStringD
         metadata := (data.pyGetD "metadata" (.obj [])).asStrDictD
         notes := notes }

/-- Mirrors `Case.to_dict`. -/
def Case.to_dict (c : Case) : JValue :=
  .obj [("case_id", .str c.case_id),
        ("case_number", .str c.case_number),
        ("name", .str c.name),
        ("investigator", .str c.investigator),
        ("evidence", .arr (c.evidence.map Evidence.to_dict)),
        ("notes", .arr (c.notes.map Note.to_dict))]

/-- Mirrors `Case.from_dict`: subscripts for case number and case id,
then the evidence and note comprehensions.  Failure points exactly as in
the source: the two subscripts, the two iterations and the recursive
`from_dict` calls — e.g. a case entry that is an object missing
`case_id` raises `KeyError` here just as in Python, while its other field
values are assigned unchecked. -/
def Case.from_dict (data : JValue) : Except PErr Case := do
  let case_number ← data.pySubscr "case_number"
  let case_id ← data.pySubscr "case_id"
  let evVals ← (data.pyGetD "evidence" (.arr [])).pyIter
  let evidence ← mapE Evidence.from_dict evVals
  let noteVals ← (data.pyGetD "notes" (.arr [])).pyIter
  let notes ← mapE Note.from_dict noteVals
  pure { case_number := case_number.asStringD
         case_id := case_id.asStringD
         name := (data.pyGetD "name" (.str "")).asStringD
         investigator := (data.pyGetD "investigator" (.str "")).asStringD
         evidence := evidence
         notes := notes }

/-- Serialization of the whole case list, as in `save_data`:
`[c.to_dict() for c in self.cases]` passed to `json.dump`. -/
def serializeCases (cases : List Case) : JValue :=
  .arr (cases.map Case.to_dict)

/-- Content of a file in the application directory: `some v` is text that
`json.load` decodes to `v`, `none` is text that raises
`json.JSONDecodeError` (including a half-written temporary file). -/
abbrev Content := Option JValue

/-- The application directory, a map from file name to content.  Paths
are relative to `app_dir`; a missing binding is a missing file. -/
abbrev FileSys := List (String × Content)

/-- Delete a file (`Path.unlink` / the old name disappearing in a
`Path.replace`). -/
def fsDel : FileSys → String → FileSys
  | [], _ => []
  | (k, v) :: rest, p => if k = p then fsDel rest p else (k, v) :: fsDel rest p

/-- Parsing the snapshot file body: `json.load` followed by
`[Case.from_dict(c) for c in data]`. -/
def parseSnapshot : Content → Except PErr (List Case)
  | none => .error .jsonDecode
  | some v => do
      let items ← v.pyIter
      mapE Case.from_dict items

/-- Outcome of `Storage._load_data`. -/
inductive LoadOutcome where
  | ok (cases : List Case) : LoadOutcome
  | corrupted (msg : String) : LoadOutcome
  | raised (e : PErr) : LoadOutcome

/-- Mirrors `Storage._load_data`: a missing snapshot yields an empty list;
a parse failure of a kind listed in the `except` clause copies the file to
`data.json.corrupted.<timestamp>` and raises `RuntimeError` naming that
backup; any other exception (notably `TypeError`) propagates untouched.
`ts` is `datetime.now().strftime("%Y%m%d_%H%M%S")`.  The `shutil.copy2`
of the backup is modelled as succeeding (its own failure is swallowed by
the source and no claim quantifies over it). -/
def Storage.load_data (fs : FileSys) (ts : String) : LoadOutcome × FileSys :=
  match assocGet fs "data.json" with
  | none => (.ok [], fs)
  | some content =>
    match parseSnapshot content with
    | .ok cases => (.ok cases, fs)
    | .error e =>
      if e.caught then
        let backup := "data.json.corrupted." ++ ts
        (.corrupted ("Data file is corrupted. Backup saved to: " ++ backup
            ++ "\nError: " ++ e.message),
         assocSet fs backup content)
      else (.raised e, fs)

/-- The successful path of `Storage.save_data`: write the serialized
snapshot to the temporary file (`data.json` with suffix `.tmp`, i.e.
`data.tmp`), then `Path.replace` it over `data.json` (rename: the
temporary name disappears, the real file gets its content). -/
def Storage.doSave (cases : List Case) (fs : FileSys) : FileSys :=
  let written := assocSet fs "data.tmp" (some (serializeCases cases))
  match assocGet written "data.tmp" with
  | some c => assocSet (fsDel written "data.tmp") "data.json" c
  | none => written

/-- Whether the temp-write step of `save_data` suffers an I/O failure.
On failure the temporary file is left with whatever text made it to disk
(`leftover`, possibly unparsable) and the exception propagates before the
replace step runs. -/
inductive WriteOutcome where
  | ok : WriteOutcome
  | fail (leftover : Content) : WriteOutcome

/-- Mirrors `Storage.save_data` with an injected outcome for the
temp-write step: `.error` is the propagating I/O exception. -/
def Storage.save_data (cases : List Case) (fs : FileSys) :
    WriteOutcome → Except FileSys FileSys
  | .ok => .ok (Storage.doSave cases fs)
  | .fail leftover => .error (assocSet fs "data.tmp" leftover)

/-- Effect parameters of `Storage.__init__` and `create_demo_case` that
the source draws from the runtime: the backup timestamp string, a clock
reading and a fresh uuid for the k-th constructed entity, the SHA-256
digest of a `"timestamp:content"` pair (`Note.calculate_hash`), and the
content analyzer outputs (`extract_tags` / `extract_iocs`, black boxes to
this layer). -/
structure Env where
  ts : String
  now : Nat → ℚ
  uuid : Nat → String
  hashOf : ℚ → String → String
  tagsOf : String → List String
  iocsOf : String → List String

/-- Construction of one demo note: `Note(content=...)` (drawing the k-th
clock value and uuid for the default timestamp and id) followed by
`calculate_hash`, `extract_tags`, `extract_iocs`. -/
def mkDemoNote (env : Env) (k : Nat) (content : String) : Note :=
  { content := content
    timestamp := env.now k
    note_id := env.uuid k
    content_hash := env.hashOf (env.now k) content
    signature := none
    tags := env.tagsOf content
    iocs := env.iocsOf content }

/-- Mirrors `create_demo_case` of `src/trace/storage_impl/demo_data.py`:
one case, two case-level notes, three evidence items carrying four, two
and one notes.  Entities draw fresh ids (and notes fresh timestamps) in
source order, indexed 0..12. -/
def create_demo_case (env : Env) : Case :=
  let case_note1 := mkDemoNote env 1
    ("Initial case briefing: Suspected data exfiltration incident.\n\nKey objectives:\n- Identify compromised systems\n- Determine scope of data loss\n- Document timeline of events\n\n#incident-response #data-breach #investigation")
  let case_note2 := mkDemoNote env 2
    ("Investigation lead: Employee reported suspicious email from sender@phishing-domain.com\nInitial analysis shows potential credential harvesting attempt.\nReview email headers and attachments for IOCs. #phishing #email-analysis")
  let note1 := mkDemoNote env 4
    ("Forensic imaging completed. Drive imaged using FTK Imager.\nImage hash verified: SHA256 e3b0c44298fc1c149afbf4c8996fb92427ae41e4649b934ca495991b7852b855\n\nChain of custody maintained throughout process. #forensics #imaging #chain-of-custody")
  let note2 := mkDemoNote env 5
    ("Discovered suspicious connections to external IP addresses:\n- 192.168.1.100 (local gateway)\n- 203.0.113.45 (external, geolocation: Unknown)\n- 198.51.100.78 (command and control server suspected)\n\nBrowser history shows visits to malicious-site.com and data-exfil.net.\n#network-analysis #ioc #c2-server")
  let note3 := mkDemoNote env 6
    ("Malware identified in temp directory:\nFile: evil.exe\nMD5: d41d8cd98f00b204e9800998ecf8427e\nSHA1: da39a3ee5e6b4b0d3255bfef95601890afd80709\nSHA256: e3b0c44298fc1c149afbf4c8996fb92427ae41e4649b934ca495991b7852b855\n\nSubmitting to VirusTotal for analysis. #malware #hash-analysis #virustotal")
  let note4 := mkDemoNote env 7
    ("Timeline analysis reveals:\n- 2024-01-15 09:23:45 - Suspicious email received\n- 2024-01-15 09:24:12 - User clicked phishing link https://evil-domain.com/login\n- 2024-01-15 09:25:03 - Credentials submitted to attacker-controlled site\n- 2024-01-15 09:30:15 - Lateral movement detected\n\nUser credentials compromised. Recommend immediate password reset. #timeline #lateral-movement")
  let note5 := mkDemoNote env 9
    ("Log analysis shows outbound connections to suspicious domains:\n- attacker-c2.com on port 443 (encrypted channel)\n- data-upload.net on port 8080 (unencrypted)\n- exfil-server.org on port 22 (SSH tunnel)\n\nTotal data transferred: approximately 2.3 GB over 4 hours.\n#log-analysis #data-exfiltration #network-traffic")
  let note6 := mkDemoNote env 10
    ("Contact information found in malware configuration:\nEmail: attacker@malicious-domain.com\nBackup C2: 2001:0db8:85a3:0000:0000:8a2e:0370:7334 (IPv6)\n\nCross-referencing with threat intelligence databases. #threat-intel #attribution")
  let note7 := mkDemoNote env 12
    ("Email headers analysis:\nFrom: sender@phishing-domain.com (spoofed)\nReply-To: attacker@evil-mail-server.net\nX-Originating-IP: 198.51.100.99\n\nEmail contains embedded tracking pixel at http://tracking.malicious-site.com/pixel.gif\nAttachment: invoice.pdf.exe (double extension trick) #email-forensics #phishing-analysis")
  let evidence1 : Evidence :=
    { name := "Employee Laptop HDD"
      evidence_id := env.uuid 3
      description := "Primary workstation hard drive - user reported suspicious activity"
      metadata := [("source_hash", "e3b0c44298fc1c149afbf4c8996fb92427ae41e4649b934ca495991b7852b855")]
      notes := [note1, note2, note3, note4] }
  let evidence2 : Evidence :=
    { name := "Firewall Logs"
      evidence_id := env.uuid 8
      description := "Corporate firewall logs from incident timeframe"
      metadata := [("source_hash", "a3f5c8b912e4d67f89b0c1a2e3d4f5a6b7c8d9e0f1a2b3c4d5e6f7a8b9c0d1e2")]
      notes := [note5, note6] }
  let evidence3 : Evidence :=
    { name := "Phishing Email"
      evidence_id := env.uuid 11
      description := "Original phishing email preserved in .eml format"
      metadata := []
      notes := [note7] }
  { case_number := "DEMO-2024-001"
    case_id := env.uuid 0
    name := "Sample Investigation"
    investigator := "Demo User"
    evidence := [evidence1, evidence2, evidence3]
    notes := [case_note1, case_note2] }

/-- Outcome of `Storage.__init__` (with the lock already held: the claims
about construction concern the data path; `LockManager` is modelled
separately below). -/
inductive InitResult where
  | ok (cases : List Case) (fs : FileSys) : InitResult
  | corrupted (msg : String) (fs : FileSys) : InitResult
  | raised (e : PErr) (fs : FileSys) : InitResult

/-- Mirrors the tail of `Storage.__init__`: load, then seed the demo case
exactly when the loaded list is empty and `data.json` does not exist
(`self.data_file.exists()` re-checked after the load), then persist. -/
def Storage.init (fs : FileSys) (env : Env) : InitResult :=
  match Storage.load_data fs env.ts with
  | (.ok cases, fs') =>
      if cases.isEmpty && (assocGet fs' "data.json").isSome then
        .ok cases fs'
      else if cases.isEmpty && !(assocGet fs' "data.json").isSome then
        let withDemo := cases ++ [create_demo_case env]
        .ok withDemo (Storage.doSave withDemo fs')
      else .ok cases fs'
  | (.corrupted msg, fs') => .corrupted msg fs'
  | (.raised e, fs') => .raised e fs'

/-- Python `==` between the `str` field of an in-memory entity and a
value taken from a decoded JSON document: true exactly when the value is
an equal string (a `str` never equals a value of another type). -/
def pyStrEq (s : String) (v : JValue) : Bool :=
  match v with
  | .str t => s == t
  | _ => false

/-- Python truthiness of a decoded JSON value (`if case_id:`): `null`,
`False`, `0`, the empty string, the empty list and the empty dict are
falsy. -/
def pyTruthy : JValue → Bool
  | .null => false
  | .bool b => b
  | .num q => q != 0
  | .str s => s != ""
  | .arr xs => !xs.isEmpty
  | .obj kvs => !kvs.isEmpty

/-- Mirrors `Storage.get_case`: first case whose `case_id` equals the
argument (the argument may be any value read from the state document). -/
def Storage.get_case (cases : List Case) (case_id : JValue) : Option Case :=
  cases.find? (fun c => pyStrEq c.case_id case_id)

/-- Mirrors `Storage.find_evidence`: scan all cases in order and inside
each case all evidence in order; first hit returns the owning case and
the evidence, otherwise `(None, None)`. -/
def Storage.find_evidence (cases : List Case) (evidence_id : JValue) :
    Option Case × Option Evidence :=
  match cases with
  | [] => (none, none)
  | c :: rest =>
    match c.evidence.find? (fun e => pyStrEq e.evidence_id evidence_id) with
    | some e => (some c, some e)
    | none => Storage.find_evidence rest evidence_id

/-- A state document: the decoded JSON object of the `state` file. -/
abbrev Dict := List (String × JValue)

/-- The persisted state file: `none` covers both a missing file and one
whose text fails to decode — `get_active` treats them alike. -/
abbrev StateFile := Option Dict

/-- Mirrors `StateManager.get_active`: a missing or unreadable state file
yields the default document with both pointers `None`. -/
def StateManager.get_active (st : StateFile) : Dict :=
  match st with
  | none => [("case_id", .null), ("evidence_id", .null)]
  | some d => d

/-- The call `state.get(k)` inside `validate_and_clear_stale`: a missing
key gives Python `None`, identified with JSON `null` (the two are
indistinguishable to every consumer in the source). -/
def pyGet (d : Dict) (k : String) : JValue :=
  (assocGet d k).getD .null

/-- Mirrors `StateManager.set_active`: read the current document, assign
the two keys, write the result through the temporary file and replace it
over the state file.  The write is modelled as succeeding (no claim
injects a failure here); the result is the new state-file content. -/
def StateManager.set_active (case_id evidence_id : JValue) (st : StateFile) :
    StateFile :=
  let state := StateManager.get_active st
  some (assocSet (assocSet state "case_id" case_id) "evidence_id" evidence_id)

/-- The slice `case_id[:8]` used in the warning f-strings.  Both claims
that reach this code do so with a string value; a truthy non-string value
would actually raise `TypeError` in the source, a path no claim
exercises. -/
def jTake8 : JValue → String
  | .str s => s.take 8
  | _ => ""

/-- Mirrors `StateManager.validate_and_clear_stale`, returning the
warning string together with the state file after any corrective
`set_active` call. -/
def StateManager.validate_and_clear_stale (cases : List Case) (st : StateFile) :
    String × StateFile :=
  let state := StateManager.get_active st
  let case_id := pyGet state "case_id"
  let evidence_id := pyGet state "evidence_id"
  if pyTruthy case_id then
    match Storage.get_case cases case_id with
    | none =>
        ("Active case (ID: " ++ jTake8 case_id
           ++ "...) no longer exists. Clearing active context.",
         StateManager.set_active .null .null st)
    | some _ =>
        if pyTruthy evidence_id then
          match (Storage.find_evidence cases evidence_id).2 with
          | none =>
              ("Active evidence (ID: " ++ jTake8 evidence_id
                 ++ "...) no longer exists. Clearing to case level.",
               StateManager.set_active case_id .null st)
          | some _ => ("", st)
        else ("", st)
  else
    if pyTruthy evidence_id then
      ("Invalid state: evidence set without case. Clearing active context.",
       StateManager.set_active .null .null st)
    else ("", st)

/-- World the lock manager acts on: the marker file content (text) and
the POSIX liveness probe `os.kill(pid, 0)` — `alive pid = false` means
the probe raises `OSError`.  The model is single-process: no other
process races the marker between steps (the claims concern one acquirer
against a leftover marker). -/
structure LockWorld where
  marker : Option String
  alive : Nat → Bool

/-- Whitespace stripping at both ends, the effect of `text.strip()`,
written on the character list so that the kernel can evaluate it. -/
def stripChars (cs : List Char) : List Char :=
  (((cs.dropWhile Char.isWhitespace).reverse).dropWhile Char.isWhitespace).reverse

/-- Parsing the marker body: `int(f.read().strip())`, `none` when the
text raises `ValueError`.  Markers written by this program are always
`str(os.getpid())`, a non-empty digit string; a leading sign, which
`int()` would also accept, never occurs in a marker and is out of
scope. -/
def parsePid (s : String) : Option Nat :=
  let cs := stripChars s.data
  if cs ≠ [] ∧ cs.all Char.isDigit then
    some (cs.foldl (fun n c => 10 * n + (c.toNat - 48)) 0)
  else none

/-- Mirrors `LockManager._is_stale_lock` (POSIX branch): a vanished file
is not stale; an unparsable body is stale (`ValueError` caught as stale);
a parsed pid is stale exactly when the liveness probe fails. -/
def LockManager.is_stale_lock (w : LockWorld) : Bool :=
  match w.marker with
  | none => false
  | some content =>
    match parsePid content with
    | none => true
    | some pid => !w.alive pid

/-- Mirrors the `acquire` polling loop.  `elapsed` is
`time.time() - start_time`; local file operations are treated as
instantaneous, so time advances only at `time.sleep(0.1)`.  `fuel` bounds
the recursion for Lean (the source loop is bounded by real time); fuel
exhaustion returns failure and is unreachable at the fuel the claims
use.  The result is (return value, world, elapsed time at return). -/
def LockManager.acquireAux (mypid : Nat) (timeout : ℚ) :
    Nat → ℚ → LockWorld → Bool × LockWorld × ℚ
  | 0, elapsed, w => (false, w, elapsed)
  | fuel + 1, elapsed, w =>
    if elapsed < timeout then
      match w.marker with
      | none =>
          (true, { w with marker := some (toString mypid) }, elapsed)
      | some _ =>
          if LockManager.is_stale_lock w then
            LockManager.acquireAux mypid timeout fuel elapsed
              { w with marker := none }
          else
            LockManager.acquireAux mypid timeout fuel (elapsed + 1 / 10) w
    else (false, w, elapsed)

/-- Mirrors `LockManager.acquire(timeout)` from the start of its loop. -/
def LockManager.acquire (mypid : Nat) (timeout : ℚ) (w : LockWorld)
    (fuel : Nat) : Bool × LockWorld × ℚ :=
  LockManager.acquireAux mypid timeout fuel 0 w

/-- Instance state of a `LockManager` paired with the marker file. -/
structure LockState where
  acquired : Bool
  marker : Option String
deriving DecidableEq

/-- Mirrors `LockManager.release`: only an instance that acquired the
lock touches the marker; the unlink swallows `FileNotFoundError`, so a
missing marker is not an error; afterwards `acquired` is cleared. -/
def LockManager.release (s : LockState) : LockState :=
  if s.acquired then { acquired := false, marker := none } else s

theorem assocGet_set_self {α : Type} (d : List (String × α)) (k : String) (v : α) :
    assocGet (assocSet d k v) k = some v := by
  induction d with
  | nil => simp [assocSet, assocGet]
  | cons hd tl ih =>
      obtain ⟨k', v'⟩ := hd
      by_cases h : k' = k
      · simp [assocSet, assocGet, h]
      · simp [assocSet, assocGet, h, ih]

theorem assocGet_set_ne {α : Type} (d : List (String × α)) (k k' : String) (v : α)
    (h : k ≠ k') : assocGet (assocSet d k v) k' = assocGet d k' := by
  induction d with
  | nil => simp [assocSet, assocGet, h]
  | cons hd tl ih =>
      obtain ⟨a, b⟩ := hd
      by_cases ha : a = k
      · subst ha
        simp [assocSet, assocGet, h]
      · simp [assocSet, assocGet, ha, ih]

theorem append_left_ne_empty (a b : String) (h : a ≠ "") : a ++ b ≠ "" := by
  intro hab
  apply h
  have hd := congrArg String.data hab
  simp only [String.data_append] at hd
  rcases List.append_eq_nil.mp hd with ⟨h1, _⟩
  obtain ⟨dat⟩ := a
  exact congrArg String.mk h1

/-- Claim C1: `save_data` serializes the snapshot, writes it to a
temporary file in the same directory, and only then replaces the real
snapshot file with it; an I/O failure during the temp-write step aborts
before the replace step and leaves the content of `data.json` exactly as
it was, for every store state and every partially written leftover. -/
theorem save_data_atomic (cases : List Case) (fs : FileSys) (leftover : Content) :
    (∃ fs', Storage.save_data cases fs (.fail leftover) = .error fs'
        ∧ assocGet fs' "data.json" = assocGet fs "data.json")
    ∧ Storage.save_data cases fs .ok = .ok (Storage.doSave cases fs)
    ∧ assocGet (Storage.doSave cases fs) "data.json"
        = some (some (serializeCases cases)) := by
  refine ⟨⟨assocSet fs "data.tmp" leftover, rfl, ?_⟩, rfl, ?_⟩
  · exact assocGet_set_ne _ _ _ _ (by decide)
  · simp only [Storage.doSave, assocGet_set_self]

/-- Claim C8: `release` deletes the lock marker exactly when this
instance acquired the lock, is idempotent, and a release by an instance
that never acquired (or a repeated release) leaves the marker file
untouched; a release with the marker already absent is not an error
(the model is total there). -/
theorem release_deletes_iff_acquired (m : Option String) (s : LockState) :
    LockManager.release ⟨true, m⟩ = ⟨false, none⟩
    ∧ LockManager.release ⟨false, m⟩ = ⟨false, m⟩
    ∧ LockManager.release (LockManager.release s) = LockManager.release s := by
  refine ⟨rfl, rfl, ?_⟩
  obtain ⟨a, mk⟩ := s
  cases a <;> rfl

/-- Claim C9: `set_active` overwrites only the `case_id` and
`evidence_id` fields of the persisted context document; every other field
of a prior content that parses as a document keeps its value. -/
theorem set_active_frame (d : Dict) (case_id evidence_id : JValue) (k : String)
    (h1 : k ≠ "case_id") (h2 : k ≠ "evidence_id") :
    assocGet (StateManager.get_active
        (StateManager.set_active case_id evidence_id (some d))) k
      = assocGet d k := by
  show assocGet (assocSet (assocSet d "case_id" case_id)
      "evidence_id" evidence_id) k = assocGet d k
  rw [assocGet_set_ne _ _ _ _ (Ne.symm h2), assocGet_set_ne _ _ _ _ (Ne.symm h1)]

/-- Witness for C9 at a concrete document carrying an unrelated field. -/
theorem set_active_frame_witness :
    "pgp_enabled" ≠ "case_id" ∧ "pgp_enabled" ≠ "evidence_id"
    ∧ assocGet (StateManager.get_active
        (StateManager.set_active (.str "c1") .null
          (some [("pgp_enabled", .bool true), ("case_id", .null)])))
        "pgp_enabled"
      = assocGet [("pgp_enabled", .bool true), ("case_id", .null)] "pgp_enabled" :=
  ⟨by decide, by decide,
   set_active_frame [("pgp_enabled", .bool true), ("case_id", .null)]
     (.str "c1") .null "pgp_enabled" (by decide) (by decide)⟩

/-- Claim C10: `acquire` with a non-positive timeout returns `False`
immediately, without attempting to create the marker file and without
altering the world, even when the lock is free. -/
theorem acquire_nonpositive_timeout (mypid : Nat) (timeout : ℚ) (w : LockWorld)
    (fuel : Nat) (h : timeout ≤ 0) :
    LockManager.acquire mypid timeout w fuel = (false, w, 0) := by
  unfold LockManager.acquire
  cases fuel with
  | zero => rfl
  | succ n =>
      have h' : ¬ ((0 : ℚ) < timeout) := not_lt.mpr h
      simp [LockManager.acquireAux, h']

/-- Witness for C10: timeout zero, no marker present, lock stays free and
the call fails. -/
theorem acquire_nonpositive_timeout_witness :
    (0 : ℚ) ≤ 0
    ∧ LockManager.acquire 42 0 ⟨none, fun _ => true⟩ 5
        = (false, ⟨none, fun _ => true⟩, 0) :=
  ⟨le_refl 0, acquire_nonpositive_timeout 42 0 ⟨none, fun _ => true⟩ 5 (le_refl 0)⟩

/-- Claim C7: a marker whose body cannot be parsed as a process id, or
whose process id fails the liveness probe, is treated as stale by
`acquire`: the marker is deleted and the lock acquired at elapsed time
zero, strictly before any positive timeout elapses (no sleep happens on
the reclamation path). -/
theorem acquire_reclaims_stale (mypid : Nat) (timeout : ℚ) (w : LockWorld)
    (content : String) (fuel : Nat)
    (hm : w.marker = some content)
    (hstale : parsePid content = none
      ∨ ∃ p, parsePid content = some p ∧ w.alive p = false)
    (ht : 0 < timeout) (hf : 2 ≤ fuel) :
    LockManager.acquire mypid timeout w fuel
      = (true, { w with marker := some (toString mypid) }, 0) := by
  obtain ⟨k, rfl⟩ : ∃ k, fuel = k + 2 := ⟨fuel - 2, by omega⟩
  have hs : LockManager.is_stale_lock w = true := by
    rcases hstale with h | ⟨p, hp, ha⟩ <;>
      simp [LockManager.is_stale_lock, hm, *]
  show LockManager.acquireAux mypid timeout (k + 2) 0 w = _
  simp [LockManager.acquireAux, ht, hm, hs]

/-- Witness for C7: an unparsable marker body, a dead-pid prober, timeout
five, two loop iterations suffice. -/
theorem acquire_reclaims_stale_witness :
    parsePid "garbage" = none
    ∧ LockManager.acquire 7 5 ⟨some "garbage", fun _ => false⟩ 2
        = (true, ⟨some (toString 7), fun _ => false⟩, 0) :=
  ⟨by decide, acquire_reclaims_stale 7 5 ⟨some "garbage", fun _ => false⟩ "garbage" 2
    rfl (Or.inl (by decide)) (by norm_num) (le_refl 2)⟩

theorem get_case_none (cases : List Case) (a : String)
    (h : ∀ c ∈ cases, c.case_id ≠ a) :
    Storage.get_case cases (.str a) = none := by
  apply List.find?_eq_none.mpr
  intro c hc
  simp only [pyStrEq, beq_iff_eq]
  exact fun he => h c hc he

theorem find_evidence_none (cases : List Case) (b : String)
    (h : ∀ c ∈ cases, ∀ e ∈ c.evidence, e.evidence_id ≠ b) :
    (Storage.find_evidence cases (.str b)).2 = none := by
  induction cases with
  | nil => rfl
  | cons c rest ih =>
      simp only [Storage.find_evidence]
      have hc : c.evidence.find? (fun e => pyStrEq e.evidence_id (.str b)) = none := by
        apply List.find?_eq_none.mpr
        intro e he
        simp only [pyStrEq, beq_iff_eq]
        exact fun heq => h c (List.mem_cons_self c rest) e he heq
      rw [hc]
      exact ih (fun c' hc' e he => h c' (List.mem_cons_of_mem c hc') e he)

theorem set_active_reads (st : StateFile) (cid eid : JValue) :
    pyGet (StateManager.get_active (StateManager.set_active cid eid st)) "case_id" = cid
    ∧ pyGet (StateManager.get_active (StateManager.set_active cid eid st)) "evidence_id" = eid := by
  constructor
  · show ((assocGet (assocSet (assocSet (StateManager.get_active st) "case_id" cid)
        "evidence_id" eid) "case_id").getD .null) = cid
    rw [assocGet_set_ne _ _ _ _ (by decide), assocGet_set_self]
    rfl
  · show ((assocGet (assocSet (assocSet (StateManager.get_active st) "case_id" cid)
        "evidence_id" eid) "evidence_id").getD .null) = eid
    rw [assocGet_set_self]
    rfl

/-- Counterexample to claim C4 as stated: a state file whose `case_id`
field is the empty string names no case of the empty store, yet
`validate_and_clear_stale` returns an empty warning and leaves the
pointer untouched, because `if case_id:` treats the empty string as
falsy. -/
theorem validate_missing_case_counterexample :
    Storage.get_case [] (.str "") = none
    ∧ (StateManager.validate_and_clear_stale []
        (some [("case_id", .str ""), ("evidence_id", .null)])).1 = ""
    ∧ (StateManager.validate_and_clear_stale []
        (some [("case_id", .str ""), ("evidence_id", .null)])).2
        = some [("case_id", .str ""), ("evidence_id", .null)] :=
  ⟨rfl, rfl, rfl⟩

/-- Claim C4 (amended): for every store and every state whose `case_id`
field is a non-empty string naming no case in the store,
`validate_and_clear_stale` returns a non-empty warning and afterwards
`get_active` yields both pointer fields null. -/
theorem validate_clears_missing_case (cases : List Case) (st : StateFile)
    (a : String)
    (hcid : pyGet (StateManager.get_active st) "case_id" = .str a)
    (ha : a ≠ "")
    (hnone : ∀ c ∈ cases, c.case_id ≠ a) :
    (StateManager.validate_and_clear_stale cases st).1 ≠ ""
    ∧ pyGet (StateManager.get_active
        (StateManager.validate_and_clear_stale cases st).2) "case_id" = .null
    ∧ pyGet (StateManager.get_active
        (StateManager.validate_and_clear_stale cases st).2) "evidence_id" = .null := by
  have htr : pyTruthy (.str a) = true := by simp [pyTruthy, ha]
  have hget := get_case_none cases a hnone
  simp only [StateManager.validate_and_clear_stale, hcid, htr, hget, if_true]
  refine ⟨?_, (set_active_reads st .null .null).1, (set_active_reads st .null .null).2⟩
  exact append_left_ne_empty _ _ (append_left_ne_empty _ _ (by decide))

/-- Witness for C4 (amended) on a one-case store and a dangling pointer. -/
theorem validate_clears_missing_case_witness :
    ("X" : String) ≠ ""
    ∧ (StateManager.validate_and_clear_stale []
        (some [("case_id", .str "X"), ("evidence_id", .null)])).1 ≠ ""
    ∧ pyGet (StateManager.get_active
        (StateManager.validate_and_clear_stale []
          (some [("case_id", .str "X"), ("evidence_id", .null)])).2) "case_id" = .null
    ∧ pyGet (StateManager.get_active
        (StateManager.validate_and_clear_stale []
          (some [("case_id", .str "X"), ("evidence_id", .null)])).2) "evidence_id" = .null := by
  have h := validate_clears_missing_case []
    (some [("case_id", .str "X"), ("evidence_id", .null)]) "X"
    rfl (by decide) (by simp)
  exact ⟨by decide, h.1, h.2.1, h.2.2⟩

/-- A case named `A` carrying no evidence, used by the C3 artifacts. -/
def cexCaseA : Case :=
  { case_number := "C-A", case_id := "A", name := "", investigator := ""
    evidence := [], notes := [] }

/-- An evidence item named `E`, owned by `cexCaseB`. -/
def cexEvidenceE : Evidence :=
  { name := "E1", evidence_id := "E", description := "", metadata := [], notes := [] }

/-- A second case `B` owning the evidence `E`. -/
def cexCaseB : Case :=
  { case_number := "C-B", case_id := "B", name := "", investigator := ""
    evidence := [cexEvidenceE], notes := [] }

/-- Counterexample to claim C3 as stated: the active case `A` exists and
owns no evidence `E` (so the claim demands a warning and a demotion), but
the evidence id `E` exists under the other case `B`; the source checks
existence with `Storage.find_evidence`, a store-wide scan, so it returns
an empty warning and leaves the evidence pointer in place. -/
theorem validate_stale_evidence_counterexample :
    Storage.get_case [cexCaseA, cexCaseB] (.str "A") = some cexCaseA
    ∧ cexCaseA.evidence = []
    ∧ (StateManager.validate_and_clear_stale [cexCaseA, cexCaseB]
        (some [("case_id", .str "A"), ("evidence_id", .str "E")])).1 = ""
    ∧ (StateManager.validate_and_clear_stale [cexCaseA, cexCaseB]
        (some [("case_id", .str "A"), ("evidence_id", .str "E")])).2
        = some [("case_id", .str "A"), ("evidence_id", .str "E")] :=
  ⟨rfl, rfl, rfl, rfl⟩

/-- Claim C3 (amended): for every store and state whose `case_id` field
is a non-empty string naming an existing case and whose `evidence_id`
field is a non-empty string naming no evidence under any case of the
store, `validate_and_clear_stale` returns a non-empty warning and
afterwards `get_active` yields the same case id with the evidence field
null. -/
theorem validate_demotes_stale_evidence (cases : List Case) (st : StateFile)
    (a b : String) (c : Case)
    (hcid : pyGet (StateManager.get_active st) "case_id" = .str a)
    (ha : a ≠ "")
    (hcase : Storage.get_case cases (.str a) = some c)
    (heid : pyGet (StateManager.get_active st) "evidence_id" = .str b)
    (hb : b ≠ "")
    (hev : ∀ c' ∈ cases, ∀ e ∈ c'.evidence, e.evidence_id ≠ b) :
    (StateManager.validate_and_clear_stale cases st).1 ≠ ""
    ∧ pyGet (StateManager.get_active
        (StateManager.validate_and_clear_stale cases st).2) "case_id" = .str a
    ∧ pyGet (StateManager.get_active
        (StateManager.validate_and_clear_stale cases st).2) "evidence_id" = .null := by
  have htra : pyTruthy (.str a) = true := by simp [pyTruthy, ha]
  have htrb : pyTruthy (.str b) = true := by simp [pyTruthy, hb]
  have hfe := find_evidence_none cases b hev
  simp only [StateManager.validate_and_clear_stale, hcid, heid, htra, htrb, hcase,
    hfe, if_true]
  refine ⟨?_, (set_active_reads st (.str a) .null).1,
    (set_active_reads st (.str a) .null).2⟩
  exact append_left_ne_empty _ _ (append_left_ne_empty _ _ (by decide))

/-- Witness for C3 (amended): case `A` exists, pointer evidence id `Z`
exists nowhere in the store. -/
theorem validate_demotes_stale_evidence_witness :
    Storage.get_case [cexCaseA] (.str "A") = some cexCaseA
    ∧ (StateManager.validate_and_clear_stale [cexCaseA]
        (some [("case_id", .str "A"), ("evidence_id", .str "Z")])).1 ≠ ""
    ∧ pyGet (StateManager.get_active
        (StateManager.validate_and_clear_stale [cexCaseA]
          (some [("case_id", .str "A"), ("evidence_id", .str "Z")])).2) "case_id"
        = .str "A"
    ∧ pyGet (StateManager.get_active
        (StateManager.validate_and_clear_stale [cexCaseA]
          (some [("case_id", .str "A"), ("evidence_id", .str "Z")])).2) "evidence_id"
        = .null := by
  have h := validate_demotes_stale_evidence [cexCaseA]
    (some [("case_id", .str "A"), ("evidence_id", .str "Z")]) "A" "Z" cexCaseA
    rfl (by decide) rfl rfl (by decide) (by simp [cexCaseA])
  exact ⟨rfl, h.1, h.2.1, h.2.2⟩

/-- Counterexample to claim C2 as stated: a snapshot file containing the
JSON text `5` is valid JSON but not a case list, so loading fails — yet
no backup is created and the raised error is the propagating `TypeError`
from iterating an int, not the fatal error naming a backup path: the
`except` clause of `_load_data` catches only `json.JSONDecodeError`,
`IOError`, `KeyError` and `ValueError`. -/
theorem load_data_no_backup_counterexample :
    Storage.load_data [("data.json", some (.num 5))] "20240101_120000"
      = (.raised (.typeError "object is not iterable"),
         [("data.json", some (.num 5))])
    ∧ assocGet [(("data.json" : String), (some (.num 5) : Content))]
        ("data.json.corrupted." ++ "20240101_120000") = none :=
  ⟨rfl, rfl⟩

/-- Claim C2 (amended): for every snapshot whose content fails to load
with an error kind the `except` clause catches (invalid JSON text, a
missing required field, or another value error), `_load_data` copies the
unreadable file to the timestamp-suffixed backup path beside the
original — a name always distinct from the snapshot name — and raises the
fatal error whose message names that backup path; no case list is
returned.  Failures of any other kind (notably the `TypeError` from a
non-list document or non-object entries) propagate without a backup. -/
theorem load_data_backs_up_caught (fs : FileSys) (ts : String)
    (content : Content) (e : PErr)
    (hfile : assocGet fs "data.json" = some content)
    (hparse : parseSnapshot content = .error e)
    (hcaught : e.caught = true) :
    Storage.load_data fs ts
      = (.corrupted ("Data file is corrupted. Backup saved to: "
            ++ ("data.json.corrupted." ++ ts) ++ "\nError: " ++ e.message),
         assocSet fs ("data.json.corrupted." ++ ts) content)
    ∧ assocGet (Storage.load_data fs ts).2 ("data.json.corrupted." ++ ts)
        = some content
    ∧ ("data.json.corrupted." ++ ts) ≠ "data.json" := by
  have h1 : Storage.load_data fs ts
      = (.corrupted ("Data file is corrupted. Backup saved to: "
            ++ ("data.json.corrupted." ++ ts) ++ "\nError: " ++ e.message),
         assocSet fs ("data.json.corrupted." ++ ts) content) := by
    simp only [Storage.load_data, hfile, hparse, hcaught, if_true]
  refine ⟨h1, ?_, ?_⟩
  · rw [h1]
    exact assocGet_set_self _ _ _
  · intro h
    have hlen := congrArg (fun s => s.data.length) h
    simp [String.data_append] at hlen

/-- Witness for C2 (amended) at two concrete snapshots: one whose text is
not valid JSON, and one that is a list whose only entry is an object
missing the required `case_id` field — the latter fails with a `KeyError`
exactly as in the source (field values are never type-checked) and is
backed up. -/
theorem load_data_backs_up_caught_witness :
    parseSnapshot none = .error .jsonDecode
    ∧ PErr.caught .jsonDecode = true
    ∧ Storage.load_data [("data.json", none)] "20240101_120000"
        = (.corrupted ("Data file is corrupted. Backup saved to: "
              ++ ("data.json.corrupted." ++ "20240101_120000") ++ "\nError: "
              ++ PErr.message .jsonDecode),
           assocSet [("data.json", none)]
             ("data.json.corrupted." ++ "20240101_120000") none)
    ∧ assocGet (Storage.load_data [("data.json", none)] "20240101_120000").2
        ("data.json.corrupted." ++ "20240101_120000") = some none
    ∧ parseSnapshot (some (.arr [.obj [("case_number", .num 5)]]))
        = .error (.keyError "case_id")
    ∧ Storage.load_data
        [("data.json", some (.arr [.obj [("case_number", .num 5)]]))]
        "20240101_120000"
        = (.corrupted ("Data file is corrupted. Backup saved to: "
              ++ ("data.json.corrupted." ++ "20240101_120000") ++ "\nError: "
              ++ PErr.message (.keyError "case_id")),
           assocSet [("data.json", some (.arr [.obj [("case_number", .num 5)]]))]
             ("data.json.corrupted." ++ "20240101_120000")
             (some (.arr [.obj [("case_number", .num 5)]]))) := by
  have h := load_data_backs_up_caught [("data.json", none)] "20240101_120000"
    none .jsonDecode rfl rfl rfl
  have h2 := load_data_backs_up_caught
    [("data.json", some (.arr [.obj [("case_number", .num 5)]]))]
    "20240101_120000" (some (.arr [.obj [("case_number", .num 5)]]))
    (.keyError "case_id") rfl rfl rfl
  exact ⟨rfl, rfl, h.1, h.2.1, rfl, h2.1⟩

theorem asStrListD_map_str (l : List String) :
    JValue.asStrListD (.arr (l.map .str)) = l := by
  induction l with
  | nil => rfl
  | cons a tl ih => simp [JValue.asStrListD, JValue.asStringD] at ih ⊢; exact ih

theorem asStrDictD_map_str (m : List (String × String)) :
    JValue.asStrDictD (.obj (m.map (fun kv => (kv.1, .str kv.2)))) = m := by
  induction m with
  | nil => rfl
  | cons kv tl ih => simp [JValue.asStrDictD, JValue.asStringD] at ih ⊢; exact ih

theorem note_roundtrip (n : Note) :
    Note.from_dict (Note.to_dict n) = .ok n := by
  obtain ⟨c, t, id, h, sg, tg, io⟩ := n
  cases sg <;>
    simp [Note.from_dict, Note.to_dict, JValue.pySubscr, JValue.pyGetD, assocGet,
      JValue.asStringD, JValue.asNumD, JValue.asOptStringD, asStrListD_map_str,
      Bind.bind, Except.bind, Pure.pure, Except.pure]

theorem mapE_note_roundtrip (ns : List Note) :
    mapE Note.from_dict (ns.map Note.to_dict) = .ok ns := by
  induction ns with
  | nil => rfl
  | cons n tl ih =>
      simp [mapE, note_roundtrip, ih, Bind.bind, Except.bind, Pure.pure, Except.pure]

theorem evidence_roundtrip (e : Evidence) :
    Evidence.from_dict (Evidence.to_dict e) = .ok e := by
  obtain ⟨nm, id, d, md, ns⟩ := e
  simp [Evidence.from_dict, Evidence.to_dict, JValue.pySubscr, JValue.pyGetD,
    assocGet, JValue.asStringD, asStrDictD_map_str, JValue.pyIter,
    mapE_note_roundtrip, Bind.bind, Except.bind, Pure.pure, Except.pure]

theorem mapE_evidence_roundtrip (es : List Evidence) :
    mapE Evidence.from_dict (es.map Evidence.to_dict) = .ok es := by
  induction es with
  | nil => rfl
  | cons e tl ih =>
      simp [mapE, evidence_roundtrip, ih, Bind.bind, Except.bind, Pure.pure, Except.pure]

theorem case_roundtrip (c : Case) :
    Case.from_dict (Case.to_dict c) = .ok c := by
  obtain ⟨num, id, nm, inv, es, ns⟩ := c
  simp [Case.from_dict, Case.to_dict, JValue.pySubscr, JValue.pyGetD, assocGet,
    JValue.asStringD, JValue.pyIter, mapE_evidence_roundtrip, mapE_note_roundtrip,
    Bind.bind, Except.bind, Pure.pure, Except.pure]

/-- Claim C6: deserialization inverts serialization field-for-field for
every `Note`, `Evidence` and `Case` value, with arbitrary nested evidence
and note collections. -/
theorem serialization_roundtrip :
    (∀ n : Note, Note.from_dict (Note.to_dict n) = .ok n)
    ∧ (∀ e : Evidence, Evidence.from_dict (Evidence.to_dict e) = .ok e)
    ∧ (∀ c : Case, Case.from_dict (Case.to_dict c) = .ok c) :=
  ⟨note_roundtrip, evidence_roundtrip, case_roundtrip⟩

/-- Claim C5: construction seeds the demonstration case exactly when the
loaded list is empty because no snapshot file existed: with no snapshot
file the store ends up holding exactly the one demo case — which carries
non-empty evidence and non-empty case-level notes — and persists it as
the new snapshot; whenever the snapshot file exists and parses (in
particular to an empty list), no demo case is seeded and the store holds
exactly the parsed list. -/
theorem storage_init_seeds (fs : FileSys) (env : Env) :
    (assocGet fs "data.json" = none →
       Storage.init fs env
         = .ok [create_demo_case env] (Storage.doSave [create_demo_case env] fs)
       ∧ assocGet (Storage.doSave [create_demo_case env] fs) "data.json"
           = some (some (serializeCases [create_demo_case env]))
       ∧ (create_demo_case env).evidence ≠ []
       ∧ (create_demo_case env).notes ≠ [])
    ∧ (∀ content cs, assocGet fs "data.json" = some content →
        parseSnapshot content = .ok cs →
        Storage.init fs env = .ok cs fs) := by
  constructor
  · intro h
    refine ⟨?_, ?_, ?_, ?_⟩
    · simp [Storage.init, Storage.load_data, h]
    · simp only [Storage.doSave, assocGet_set_self]
    · simp [create_demo_case]
    · simp [create_demo_case]
  · intro content cs hc hp
    by_cases hcs : cs.isEmpty <;>
      simp [Storage.init, Storage.load_data, hc, hp, hcs]

/-- Environment used by the C5 witness: constant clock, counting ids. -/
def envW : Env :=
  { ts := "20240101_120000", now := fun _ => 0, uuid := fun k => toString k
    hashOf := fun _ _ => "h", tagsOf := fun _ => [], iocsOf := fun _ => [] }

/-- Witness for C5: an empty directory seeds and persists the demo case;
a snapshot parsing to the empty list seeds nothing. -/
theorem storage_init_seeds_witness :
    assocGet ([] : FileSys) "data.json" = none
    ∧ Storage.init [] envW
        = .ok [create_demo_case envW] (Storage.doSave [create_demo_case envW] [])
    ∧ (create_demo_case envW).evidence ≠ []
    ∧ (create_demo_case envW).notes ≠ []
    ∧ parseSnapshot (some (.arr [])) = .ok []
    ∧ Storage.init [("data.json", some (.arr []))] envW
        = .ok [] [("data.json", some (.arr []))] := by
  have h1 := (storage_init_seeds [] envW).1 rfl
  have h2 := (storage_init_seeds [("data.json", some (.arr []))] envW).2
    (some (.arr [])) [] rfl rfl
  exact ⟨rfl, h1.1, h1.2.2.1, h1.2.2.2, rfl, h2⟩

end Trace
